import Mathlib

/-!
# Shallow embedding of the Wolffs InstaTrade client

This file embeds, in Lean, the client-side logic of the React single-page
application in this repository: the WebSocket handlers and alert list of the
dashboard (`src/frontend/src/pages/AlertsPage.jsx`, DashboardPage section),
the session restore logic of `src/frontend/src/context/AuthContext.jsx`,
the route guards of `src/frontend/src/App.js`, the admin page guards, the
login/registration form handlers, and the settings page operations of
`src/unnamed/part_003` (SettingsPage).  JavaScript strings become `String`,
optional / possibly-`undefined` fields become `Option`, dates become integer
timestamps, and event handlers become pure functions from their inputs (and
the component state they read) to the state they produce together with the
externally visible actions they emit.
-/

/-- An alert as the client receives it (see the `Alert` entity and the
dashboard WebSocket handler).  `action` is optional because the code guards
it with `alert.action?.`; the timestamp is modelled as an optional day
index, which is all `formatDate` distinguishes. -/
structure Alert where
  id : Nat
  symbol : String
  action : Option String
  price : Option Int
  timestamp : Option Nat
deriving DecidableEq, Repr

/-- A user subscription as read by the client: `status`, `expiry_date`
(modelled as an integer date), `plan_type`; every field may be absent. -/
structure Subscription where
  status : Option String
  expiryDate : Option Int
  planType : Option String
deriving DecidableEq, Repr

/-- A user profile as returned by `/api/auth/me`: name, admin flag and an
optional subscription object. -/
structure UserProfile where
  name : String
  isAdmin : Bool
  subscription : Option Subscription
deriving DecidableEq, Repr

/-! ## Dashboard WebSocket client (AlertsPage.jsx lines 883-958)

`connectWebSocket` installs three handlers on the socket: `onopen` starts a
30000 ms `setInterval` whose tick sends the string `ping` when the socket is
still open; `onclose` clears that interval and schedules a single
`setTimeout(connectWebSocket, 2000)`; `onmessage` parses the frame and
prepends new alerts.  We embed the handlers as a step function from the
client state and the fired event to the next state plus the list of timer /
network actions the handler performs. -/

/-- Externally visible actions a WebSocket handler performs: scheduling a
reconnect `setTimeout`, installing the heartbeat `setInterval`, clearing it,
or sending a frame. -/
inductive WsAction where
  | scheduleReconnect (delayMs : Nat)
  | setHeartbeat (periodMs : Nat)
  | clearHeartbeat
  | send (message : String)
deriving DecidableEq, Repr

/-- The part of the dashboard component state the WebSocket handlers touch:
the socket ready state, the `wsConnected` React state and whether the
heartbeat interval is installed. -/
structure WsClientState where
  readyStateOpen : Bool
  wsConnected : Bool
  heartbeatActive : Bool
deriving DecidableEq, Repr

/-- The events delivered to the handlers of `connectWebSocket`: the socket
opening, the socket closing, and a tick of the heartbeat interval. -/
inductive WsEvent where
  | onopen
  | onclose
  | heartbeatTick
deriving DecidableEq, Repr

/-- Step function of the dashboard WebSocket client
(AlertsPage.jsx lines 888-898 for `onopen`, 942-950 for `onclose`, and the
interval body at lines 892-896 for the heartbeat tick). -/
def wsHandle : WsClientState → WsEvent → WsClientState × List WsAction
  | _, WsEvent.onopen =>
    ({ readyStateOpen := true, wsConnected := true, heartbeatActive := true },
      [WsAction.setHeartbeat 30000])
  | _, WsEvent.onclose =>
    ({ readyStateOpen := false, wsConnected := false, heartbeatActive := false },
      [WsAction.clearHeartbeat, WsAction.scheduleReconnect 2000])
  | s, WsEvent.heartbeatTick =>
    (s, if s.readyStateOpen then [WsAction.send "ping"] else [])

/-- The delays of the reconnect timeouts among a list of actions. -/
def reconnectDelays (actions : List WsAction) : List Nat :=
  actions.filterMap fun a =>
    match a with
    | WsAction.scheduleReconnect d => some d
    | _ => none

/-! ## Dashboard `ws.onmessage` (AlertsPage.jsx lines 900-940)

A successfully parsed frame is an object with a `type` field and an `alert`
field.  When `type` is `new_alert` the handler prepends the alert to the
list (`setAlerts(prev => [data.alert, ...prev])`) and attempts to play the
notification sound; any other type falls through and changes nothing. -/

/-- A parsed WebSocket frame: its `type` field and its `alert` field. -/
structure WsMessage where
  msgType : String
  alert : Alert
deriving DecidableEq, Repr

/-- The `ws.onmessage` handler on a parsed frame: returns the new alerts
list and whether the notification sound was triggered. -/
def handleWsMessage (alerts : List Alert) (data : WsMessage) :
    List Alert × Bool :=
  if data.msgType = "new_alert" then (data.alert :: alerts, true)
  else (alerts, false)

/-! ## SettingsPage `toggleInstrument` (src/unnamed/part_003 lines 217-225)

```js
const toggleInstrument = (inst) => {
    if (instruments.includes(inst)) {
        if (instruments.length > 1) {
            setInstruments(instruments.filter(i => i !== inst));
        }
    } else {
        setInstruments([...instruments, inst]);
    }
};
```
-/

/-- `toggleInstrument`: remove a present instrument (every occurrence, via
`filter`) only when the list has more than one element, append an absent
one. -/
def toggleInstrument (instruments : List String) (inst : String) :
    List String :=
  if inst ∈ instruments then
    if 1 < instruments.length then instruments.filter (· ≠ inst)
    else instruments
  else instruments ++ [inst]

/-! ## SettingsPage `getWebhookUrl` (src/unnamed/part_003 lines 227-233) -/

/-- `getWebhookUrl`: the shared TradingView URL for the `wolffs_alerts`
subscriber type, otherwise the per-user URL built from the webhook id. -/
def getWebhookUrl (apiUrl subscriberType webhookId : String) : String :=
  if subscriberType = "wolffs_alerts" then
    apiUrl ++ "/api/webhook/tradingview"
  else
    apiUrl ++ "/api/webhook/user/" ++ webhookId

/-! ## Form submit handlers

`handleRegister` (AlertsPage.jsx lines 1495-1523, LoginPage section) and
`handleChangePassword` (src/unnamed/part_003 lines 242-271) validate their
fields in order and either stop with an error toast, issuing no HTTP
request, or send the POST.  We embed a handler as a function from the form
fields to the outcome. -/

/-- Outcome of a form submit handler: an early return showing an error toast
(no HTTP request is issued), or an HTTP POST to `path` with `payload`. -/
inductive FormOutcome where
  | rejected (toastMessage : String)
  | submitted (path : String) (payload : List (String × String))
deriving DecidableEq, Repr

/-- `handleRegister`: empty required fields, then password/confirm mismatch,
then password shorter than 6, each stop the handler with a toast; otherwise
the handler POSTs to `/api/auth/register`. -/
def handleRegister (regMobile regPassword regConfirmPassword regName :
    String) : FormOutcome :=
  if regMobile = "" ∨ regPassword = "" ∨ regConfirmPassword = "" then
    FormOutcome.rejected "Please fill all required fields"
  else if regPassword ≠ regConfirmPassword then
    FormOutcome.rejected "Passwords do not match"
  else if regPassword.length < 6 then
    FormOutcome.rejected "Password must be at least 6 characters"
  else
    FormOutcome.submitted "/api/auth/register"
      [("mobile", regMobile), ("password", regPassword), ("name", regName)]

/-- `handleChangePassword`: empty fields, then new/confirm mismatch, then
new password shorter than 6, each stop the handler with a toast; otherwise
the handler POSTs to `/api/auth/change-password`. -/
def handleChangePassword (currentPassword newPassword confirmNewPassword :
    String) : FormOutcome :=
  if currentPassword = "" ∨ newPassword = "" ∨ confirmNewPassword = "" then
    FormOutcome.rejected "Please fill all password fields"
  else if newPassword ≠ confirmNewPassword then
    FormOutcome.rejected "New passwords do not match"
  else if newPassword.length < 6 then
    FormOutcome.rejected "New password must be at least 6 characters"
  else
    FormOutcome.submitted "/api/auth/change-password"
      [("current_password", currentPassword),
        ("new_password", newPassword)]

/-- The `disabled` attribute of the register submit button
(AlertsPage.jsx lines 1730-1737): `disabled={loading}`.  The password and
confirm fields are in scope in the component but the attribute reads only
the `loading` flag. -/
def registerSubmitDisabled (loading : Bool)
    (regPassword regConfirmPassword : String) : Bool :=
  loading

/-! ## AuthContext session restore (AuthContext.jsx lines 22-46)

`fetchUser` reads the stored token; with no stored token it only clears the
loading flag.  Otherwise it sets the Authorization header from the stored
token and issues `GET /api/auth/me`.  On success it stores the profile and
token; on failure it logs out — removing the stored token, deleting the
header and nulling `token` and `user` — only when the response status is
401, and otherwise leaves the session state alone. -/

/-- The session state `fetchUser` manipulates: the token in localStorage,
the axios default Authorization header (the bearer token it carries), and
the React `token` and `user` state. -/
structure AuthState where
  storedToken : Option String
  authHeader : Option String
  token : Option String
  user : Option UserProfile
deriving DecidableEq, Repr

/-- Result of the `GET /api/auth/me` request: a profile on success, or a
failure carrying the HTTP status when the server responded (`none` for a
network-level error with no response). -/
inductive FetchResult where
  | success (profile : UserProfile)
  | failure (status : Option Nat)
deriving DecidableEq, Repr

/-- The fully logged-out session state `fetchUser` produces on a 401. -/
def loggedOutState : AuthState :=
  { storedToken := none, authHeader := none, token := none, user := none }

/-- `fetchUser` (AuthContext.jsx lines 22-46) as a state transformer over
the request result. -/
def fetchUser (s : AuthState) (result : FetchResult) : AuthState :=
  match s.storedToken with
  | none => s
  | some tok =>
    match result with
    | FetchResult.success profile =>
      { s with
          authHeader := some tok
          user := some profile
          token := some tok }
    | FetchResult.failure status =>
      if status = some 401 then loggedOutState
      else { s with authHeader := some tok }

/-! ## AdminPage guards (AlertsPage.jsx, AdminPage section)

The mount effect (lines 300-306) redirects non-admins to `/subscription`
without fetching; the render (lines 434-436) returns `null` for non-admins,
so no admin content is rendered.  `fetchData`'s catch (lines 319-324)
toasts `Admin access required` and navigates to `/subscription` exactly on
a 403 response; any other failure is only logged. -/

/-- What the AdminPage mount effect does for a given `user` value. -/
inductive AdminEffect where
  | redirect (dest : String)
  | fetchData
deriving DecidableEq, Repr

/-- The AdminPage mount effect (lines 300-306): `if (!user?.is_admin)
navigate('/subscription')`, else fetch the admin data. -/
def adminPageEffect (user : Option UserProfile) : AdminEffect :=
  match user with
  | some u => if u.isAdmin then AdminEffect.fetchData
              else AdminEffect.redirect "/subscription"
  | none => AdminEffect.redirect "/subscription"

/-- The AdminPage render guard (lines 434-436): `if (!user?.is_admin)
return null` — whether any page content is rendered at all. -/
def adminPageRendersContent (user : Option UserProfile) : Bool :=
  match user with
  | some u => u.isAdmin
  | none => false

/-- The toast and navigation the catch clause of `AdminPage.fetchData`
performs for a failure with the given HTTP status (lines 319-324). -/
def adminFetchOnError (status : Option Nat) :
    Option String × Option String :=
  if status = some 403 then (some "Admin access required",
    some "/subscription")
  else (none, none)

/-! ## SubscriptionRequiredRoute (App.js lines 33-55)

```js
if (loading) return <LoadingScreen />;
if (!isAuthenticated) return <Navigate to="/" replace />;
const subscription = user?.subscription || {};
const hasActiveSubscription = subscription.status === 'active' ||
    subscription.status === 'trial';
if (subscription.expiry_date) {
    const expiry = new Date(subscription.expiry_date);
    if (expiry < new Date()) return <Navigate to="/subscription" replace />;
}
if (!hasActiveSubscription) return <Navigate to="/subscription" replace />;
return children;
```
-/

/-- What a route component renders: the loading screen, a `Navigate`
redirect, or its children. -/
inductive RouteResult where
  | loadingScreen
  | navigate (dest : String)
  | children
deriving DecidableEq, Repr

/-- The `{}` fallback of `user?.subscription || {}`. -/
def emptySubscription : Subscription :=
  { status := none, expiryDate := none, planType := none }

/-- `SubscriptionRequiredRoute` (App.js lines 33-55); `now` is the value of
`new Date()` at render time. -/
def subscriptionRequiredRoute (loading isAuthenticated : Bool)
    (user : Option UserProfile) (now : Int) : RouteResult :=
  if loading then RouteResult.loadingScreen
  else if !isAuthenticated then RouteResult.navigate "/"
  else
    let sub := match user with
      | some u => u.subscription.getD emptySubscription
      | none => emptySubscription
    let hasActiveSubscription :=
      sub.status == some "active" || sub.status == some "trial"
    match sub.expiryDate with
    | some expiry =>
      if expiry < now then RouteResult.navigate "/subscription"
      else if hasActiveSubscription then RouteResult.children
      else RouteResult.navigate "/subscription"
    | none =>
      if hasActiveSubscription then RouteResult.children
      else RouteResult.navigate "/subscription"

/-! ## Alerts page filtering and grouping (AlertsPage.jsx lines 49-92)

`filteredAlerts` keeps everything for the `all` filter and otherwise the
alerts whose `action?.toLowerCase()` equals the filter.  `formatDate`
renders a timestamp as `Today`, `Yesterday` or a locale date string; we
model timestamps as day indices relative to a `today` parameter, and
abstract the locale rendering of older days to `Day <n>` (it depends only
on the calendar day).  `groupedAlerts` is the `reduce` that pushes each
filtered alert onto the bucket of its date key inside an insertion-ordered
object, modelled as an association list to which new keys are appended. -/

/-- `filteredAlerts` (lines 49-52): `all` keeps every alert, otherwise keep
the alerts whose lowercased action equals the filter; a missing action
never matches a non-`all` filter. -/
def filteredAlerts (filter : String) (alerts : List Alert) : List Alert :=
  alerts.filter fun a =>
    if filter = "all" then true
    else match a.action with
      | some s => s.toLower = filter
      | none => false

/-- `formatDate` (lines 65-82) on day indices: `Today` for the current day,
`Yesterday` for the previous one, a day rendering otherwise; a missing
timestamp renders as the empty string. -/
def formatDate (today : Nat) (timestamp : Option Nat) : String :=
  match timestamp with
  | none => ""
  | some d =>
    if d = today then "Today"
    else if d + 1 = today then "Yesterday"
    else "Day " ++ toString d

/-- Push one alert onto the bucket of `key` inside the insertion-ordered
groups object: append to the existing bucket, or append a new singleton
bucket at the end (`groups[dateKey].push(alert)` after creating
`groups[dateKey] = []` when absent, lines 87-90). -/
def pushGroup (groups : List (String × List Alert)) (key : String)
    (a : Alert) : List (String × List Alert) :=
  match groups with
  | [] => [(key, [a])]
  | (k, g) :: rest =>
    if k = key then (k, g ++ [a]) :: rest
    else (k, g) :: pushGroup rest key a

/-- `groupedAlerts` (lines 85-92): the `reduce` over the filtered alerts
starting from the empty object. -/
def groupedAlerts (today : Nat) (filter : String) (alerts : List Alert) :
    List (String × List Alert) :=
  (filteredAlerts filter alerts).foldl
    (fun gs a => pushGroup gs (formatDate today a.timestamp) a) []

/-- The bucket stored under `key`, `[]` when absent. -/
def groupLookup (key : String) (groups : List (String × List Alert)) :
    List Alert :=
  match groups with
  | [] => []
  | (k, g) :: rest => if k = key then g else groupLookup key rest

/-- Concatenation of the buckets in the order their keys first occur. -/
def groupsConcat (groups : List (String × List Alert)) : List Alert :=
  (groups.map Prod.snd).flatten

/-! ## Theorems -/

/-- C1: whenever the dashboard WebSocket closes, the `onclose` handler
schedules exactly one reconnect attempt, always after the fixed 2000 ms
delay regardless of the current client state (no exponential backoff); the
`onopen` handler installs a single heartbeat interval of 30000 ms, and each
heartbeat tick while the socket is open sends exactly the message `ping`. -/
theorem ws_reconnect_fixed_and_heartbeat_ping (s : WsClientState) :
    reconnectDelays (wsHandle s WsEvent.onclose).2 = [2000] ∧
    (wsHandle s WsEvent.onopen).2 = [WsAction.setHeartbeat 30000] ∧
    (wsHandle s WsEvent.heartbeatTick).2 =
      (if s.readyStateOpen then [WsAction.send "ping"] else []) :=
  ⟨rfl, rfl, rfl⟩

/-- C6: a parsed frame of type `new_alert` prepends its alert to the alerts
list — the result is literally the new alert consed onto the previous list,
so every previously listed alert stays present in its existing relative
order — and triggers the notification sound; a frame of any other type
leaves the list unchanged and plays nothing. -/
theorem ws_onmessage_new_alert_prepends (alerts : List Alert)
    (data : WsMessage) :
    (data.msgType = "new_alert" →
      handleWsMessage alerts data = (data.alert :: alerts, true)) ∧
    (data.msgType ≠ "new_alert" →
      handleWsMessage alerts data = (alerts, false)) := by
  constructor <;> intro h <;> simp [handleWsMessage, h]

/-- Witness for C6 at a concrete frame and list. -/
theorem ws_onmessage_new_alert_prepends_witness :
    handleWsMessage
        [Alert.mk 7 "ETHUSD" (some "SELL") (some 3000) (some 99)]
        (WsMessage.mk "new_alert"
          (Alert.mk 9 "BTCUSD" (some "BUY") (some 50000) (some 100))) =
      (Alert.mk 9 "BTCUSD" (some "BUY") (some 50000) (some 100) ::
        [Alert.mk 7 "ETHUSD" (some "SELL") (some 3000) (some 99)], true) :=
  (ws_onmessage_new_alert_prepends _ _).1 rfl

/-- C2 counterexample: on a list that contains a duplicated instrument, a
toggle can empty the list, because `filter(i => i !== inst)` removes every
occurrence while the `length > 1` guard only checks the element count: the
non-empty state `["BTC", "BTC"]` toggled on `"BTC"` becomes `[]`. -/
theorem toggleInstrument_empties_duplicated_list :
    (["BTC", "BTC"] : List String) ≠ [] ∧
    toggleInstrument ["BTC", "BTC"] "BTC" = [] := by decide

/-- C2 amended: on an instruments list without duplicate entries — which
holds for every state reachable from the default `['BTC', 'ETH']`, since
toggling also preserves freedom from duplicates — `toggleInstrument` never
produces an empty list: it removes a present instrument only when the list
has more than one element and appends an absent one. -/
theorem toggleInstrument_preserves_nonempty (l : List String)
    (inst : String) (hnd : l.Nodup) (hne : l ≠ []) :
    toggleInstrument l inst ≠ [] ∧ (toggleInstrument l inst).Nodup := by
  unfold toggleInstrument
  by_cases hmem : inst ∈ l
  · rw [if_pos hmem]
    by_cases hlen : 1 < l.length
    · rw [if_pos hlen]
      refine ⟨?_, hnd.filter _⟩
      obtain ⟨x, hx, hxne⟩ : ∃ x ∈ l, x ≠ inst := by
        match l, hnd, hlen with
        | a :: b :: t, hnd, _ =>
          by_cases hai : a = inst
          · refine ⟨b, by simp, ?_⟩
            have hab : a ≠ b := by
              intro hab
              exact (List.nodup_cons.1 hnd).1 (hab ▸ List.mem_cons_self b t)
            exact fun hb => hab (by rw [hai, hb])
          · exact ⟨a, by simp, hai⟩
      intro hempty
      have hxmem : x ∈ l.filter (· ≠ inst) := by
        simp only [List.mem_filter, decide_eq_true_eq]
        exact ⟨hx, hxne⟩
      rw [hempty] at hxmem
      exact absurd hxmem (List.not_mem_nil x)
    · rw [if_neg hlen]
      exact ⟨hne, hnd⟩
  · rw [if_neg hmem]
    refine ⟨by simp, ?_⟩
    rw [List.nodup_append]
    exact ⟨hnd, List.nodup_singleton inst, by simpa using fun h => hmem h⟩

/-- Witness for C2's amended theorem at the default instruments list. -/
theorem toggleInstrument_preserves_nonempty_witness :
    toggleInstrument ["BTC", "ETH"] "BTC" ≠ [] ∧
    (toggleInstrument ["BTC", "ETH"] "BTC").Nodup :=
  toggleInstrument_preserves_nonempty ["BTC", "ETH"] "BTC" (by decide)
    (by decide)

/-- C3: both the registration form and the change-password form reject a
(new) password shorter than 6 characters with an error toast and issue no
HTTP request; the POST to `/api/auth/register`, respectively
`/api/auth/change-password`, is sent only when the password is at least 6
characters long and matches its confirmation field. -/
theorem password_min_length_enforced
    (regMobile regPassword regConfirmPassword regName : String)
    (currentPassword newPassword confirmNewPassword : String) :
    (regPassword.length < 6 →
      ∃ msg, handleRegister regMobile regPassword regConfirmPassword
        regName = FormOutcome.rejected msg) ∧
    (∀ path payload,
      handleRegister regMobile regPassword regConfirmPassword regName =
        FormOutcome.submitted path payload →
      6 ≤ regPassword.length ∧ regPassword = regConfirmPassword ∧
        path = "/api/auth/register") ∧
    (newPassword.length < 6 →
      ∃ msg, handleChangePassword currentPassword newPassword
        confirmNewPassword = FormOutcome.rejected msg) ∧
    (∀ path payload,
      handleChangePassword currentPassword newPassword confirmNewPassword =
        FormOutcome.submitted path payload →
      6 ≤ newPassword.length ∧ newPassword = confirmNewPassword ∧
        path = "/api/auth/change-password") := by
  refine ⟨?_, ?_, ?_, ?_⟩
  · intro hlen
    unfold handleRegister
    split_ifs <;> exact ⟨_, rfl⟩
  · intro path payload hsub
    unfold handleRegister at hsub
    split_ifs at hsub with h1 h2 h3
    obtain ⟨hpath, -⟩ := FormOutcome.submitted.inj hsub
    exact ⟨Nat.le_of_not_lt h3, not_not.1 h2, hpath.symm⟩
  · intro hlen
    unfold handleChangePassword
    split_ifs <;> exact ⟨_, rfl⟩
  · intro path payload hsub
    unfold handleChangePassword at hsub
    split_ifs at hsub with h1 h2 h3
    obtain ⟨hpath, -⟩ := FormOutcome.submitted.inj hsub
    exact ⟨Nat.le_of_not_lt h3, not_not.1 h2, hpath.symm⟩

/-- Witness for C3: a 3-character password is rejected on both forms, and a
valid 6-character registration is submitted with a matching confirmation. -/
theorem password_min_length_enforced_witness :
    (∃ msg, handleRegister "9876543210" "abc" "abc" "A" =
      FormOutcome.rejected msg) ∧
    (6 ≤ ("secret" : String).length ∧ ("secret" : String) = "secret" ∧
      "/api/auth/register" = "/api/auth/register") :=
  ⟨(password_min_length_enforced "9876543210" "abc" "abc" "A"
      "x" "y" "z").1 (by decide),
    (password_min_length_enforced "9876543210" "secret" "secret" "A"
      "x" "y" "z").2.1 "/api/auth/register"
      [("mobile", "9876543210"), ("password", "secret"), ("name", "A")]
      (by decide)⟩

/-- C4: when the session-restoring `GET /api/auth/me` fails while a token
is stored, `fetchUser` produces the fully logged-out state (stored token
removed, Authorization header deleted, `token` and `user` null) exactly
when the failure status is 401; on any other failure the stored token and
the `token` / `user` session state are left unchanged. -/
theorem fetchUser_forced_logout_iff_401 (s : AuthState) (tok : String)
    (st : Option Nat) (h : s.storedToken = some tok) :
    (fetchUser s (FetchResult.failure st) = loggedOutState ↔
      st = some 401) ∧
    (st ≠ some 401 →
      (fetchUser s (FetchResult.failure st)).storedToken = s.storedToken ∧
      (fetchUser s (FetchResult.failure st)).token = s.token ∧
      (fetchUser s (FetchResult.failure st)).user = s.user) := by
  obtain ⟨st0, ah, tk, us⟩ := s
  change st0 = some tok at h
  subst h
  simp only [fetchUser]
  by_cases h401 : st = some 401
  · rw [if_pos h401]
    exact ⟨⟨fun _ => h401, fun _ => rfl⟩, fun hne => absurd h401 hne⟩
  · rw [if_neg h401]
    refine ⟨⟨fun heq => ?_, fun h4 => absurd h4 h401⟩,
      fun _ => ⟨rfl, rfl, rfl⟩⟩
    have hst := congrArg AuthState.storedToken heq
    simp [loggedOutState] at hst

/-- Witness for C4: a 401 failure logs the session out, a 500 failure
leaves the stored token in place. -/
theorem fetchUser_forced_logout_iff_401_witness :
    (fetchUser (AuthState.mk (some "tok") none (some "tok") none)
        (FetchResult.failure (some 401)) = loggedOutState) ∧
    (fetchUser (AuthState.mk (some "tok") none (some "tok") none)
        (FetchResult.failure (some 500))).storedToken = some "tok" :=
  ⟨((fetchUser_forced_logout_iff_401
      (AuthState.mk (some "tok") none (some "tok") none) "tok"
      (some 401) rfl).1).2 rfl,
    by
      have h2 := ((fetchUser_forced_logout_iff_401
        (AuthState.mk (some "tok") none (some "tok") none) "tok"
        (some 500) rfl).2 (by decide)).1
      rw [h2]⟩

/-- C5: the catch clause of the admin data fetch toasts
`Admin access required` and navigates to `/subscription` exactly when the
failure status is 403 (any other failure shows no toast and navigates
nowhere); and a user profile without the admin flag makes the mount effect
redirect to `/subscription` while the render guard returns `null`, so no
admin content is rendered. -/
theorem admin_forbidden_toast_and_guard (st : Option Nat)
    (u : Option UserProfile) :
    (adminFetchOnError st =
        (some "Admin access required", some "/subscription") ↔
      st = some 403) ∧
    (∀ p, u = some p → p.isAdmin = false →
      adminPageEffect u = AdminEffect.redirect "/subscription" ∧
      adminPageRendersContent u = false) := by
  constructor
  · unfold adminFetchOnError
    by_cases h403 : st = some 403
    · rw [if_pos h403]
      exact ⟨fun _ => h403, fun _ => rfl⟩
    · rw [if_neg h403]
      constructor
      · intro heq
        exact absurd (congrArg Prod.fst heq) (by simp)
      · intro h4; exact absurd h4 h403
  · intro p hp hadm
    subst hp
    simp [adminPageEffect, adminPageRendersContent, hadm]

/-- Witness for C5: a 403 failure toasts and redirects, and a concrete
non-admin profile is redirected with nothing rendered. -/
theorem admin_forbidden_toast_and_guard_witness :
    adminPageEffect (some (UserProfile.mk "U" false none)) =
      AdminEffect.redirect "/subscription" ∧
    adminPageRendersContent (some (UserProfile.mk "U" false none)) =
      false :=
  (admin_forbidden_toast_and_guard (some 403)
    (some (UserProfile.mk "U" false none))).2
    (UserProfile.mk "U" false none) rfl rfl

/-- C7 counterexample: with no submission in progress and differing
password and confirm-password fields, the register submit button is not
disabled — its `disabled` attribute reads only the `loading` flag — so the
mismatch does not prevent the submit control from being enabled. -/
theorem register_submit_enabled_despite_mismatch :
    ("abcdef" : String) ≠ "abcdeg" ∧
    registerSubmitDisabled false "abcdef" "abcdeg" = false := by decide

/-- C7 amended: the register submit control is disabled exactly while a
submission is in progress (`loading`), independent of the password fields;
a mismatch between password and confirm-password is instead rejected by
the submit handler itself, which shows an error toast and issues no
registration request. -/
theorem register_submit_mismatch_rejected_by_handler (loading : Bool)
    (regMobile regPassword regConfirmPassword regName : String)
    (h : regPassword ≠ regConfirmPassword) :
    registerSubmitDisabled loading regPassword regConfirmPassword =
      loading ∧
    ∃ msg, handleRegister regMobile regPassword regConfirmPassword
      regName = FormOutcome.rejected msg := by
  refine ⟨rfl, ?_⟩
  unfold handleRegister
  split_ifs with h1 h2
  · exact ⟨_, rfl⟩
  · exact ⟨_, rfl⟩

/-- Witness for C7's amended theorem at concrete mismatched fields. -/
theorem register_submit_mismatch_rejected_by_handler_witness :
    registerSubmitDisabled false "abcdef" "abcdeg" = false ∧
    ∃ msg, handleRegister "9876543210" "abcdef" "abcdeg" "A" =
      FormOutcome.rejected msg :=
  register_submit_mismatch_rejected_by_handler false "9876543210"
    "abcdef" "abcdeg" "A" (by decide)

/-- The per-user webhook URL can never coincide with the shared TradingView
webhook URL: after the common `apiUrl`, one path continues with
`/api/webhook/user/` and the other with `/api/webhook/tradingview`, which
differ within their first 18 characters. -/
theorem webhook_user_url_ne_tradingview_url (apiUrl webhookId : String) :
    apiUrl ++ "/api/webhook/user/" ++ webhookId ≠
      apiUrl ++ "/api/webhook/tradingview" := by
  intro heq
  have hdata := congrArg String.data heq
  simp only [String.data_append, List.append_assoc] at hdata
  have h2 : ("/api/webhook/user/".data ++ webhookId.data) =
      "/api/webhook/tradingview".data := List.append_cancel_left hdata
  have hlen : ("/api/webhook/user/".data).length = 18 := by decide
  have h3 : ("/api/webhook/tradingview".data).take 18 =
      "/api/webhook/user/".data := by
    rw [← h2, ← hlen, List.take_left]
  exact absurd h3 (by decide)

/-- C8: `getWebhookUrl` returns the shared URL
`{API_URL}/api/webhook/tradingview` exactly when the subscriber type is
`wolffs_alerts`, and for every other subscriber type returns the per-user
URL `{API_URL}/api/webhook/user/{webhookId}`. -/
theorem getWebhookUrl_shared_iff_wolffs
    (apiUrl subscriberType webhookId : String) :
    (getWebhookUrl apiUrl subscriberType webhookId =
        apiUrl ++ "/api/webhook/tradingview" ↔
      subscriberType = "wolffs_alerts") ∧
    (subscriberType ≠ "wolffs_alerts" →
      getWebhookUrl apiUrl subscriberType webhookId =
        apiUrl ++ "/api/webhook/user/" ++ webhookId) := by
  unfold getWebhookUrl
  by_cases hst : subscriberType = "wolffs_alerts"
  · rw [if_pos hst]
    exact ⟨⟨fun _ => hst, fun _ => rfl⟩, fun hne => absurd hst hne⟩
  · rw [if_neg hst]
    refine ⟨⟨fun heq => ?_, fun h => absurd h hst⟩, fun _ => rfl⟩
    exact absurd heq (webhook_user_url_ne_tradingview_url apiUrl webhookId)

/-- Witness for C8 at concrete settings values for both subscriber types. -/
theorem getWebhookUrl_shared_iff_wolffs_witness :
    getWebhookUrl "https://api.example.com" "custom_strategy" "abc123" =
      "https://api.example.com" ++ "/api/webhook/user/" ++ "abc123" ∧
    getWebhookUrl "https://api.example.com" "wolffs_alerts" "abc123" =
      "https://api.example.com" ++ "/api/webhook/tradingview" :=
  ⟨(getWebhookUrl_shared_iff_wolffs "https://api.example.com"
      "custom_strategy" "abc123").2 (by decide),
    (getWebhookUrl_shared_iff_wolffs "https://api.example.com"
      "wolffs_alerts" "abc123").1.2 rfl⟩

/-- C9: with loading finished, `SubscriptionRequiredRoute` renders its
children exactly when the user is authenticated and carries a subscription
whose status is `active` or `trial` and whose expiry date, when present, is
not in the past; and an `active`/`trial` subscription whose expiry date has
passed is redirected to `/subscription`.  (A subscription with `active` or
`trial` status and no expiry date at all satisfies the right-hand side
vacuously, so it is admitted.) -/
theorem subscriptionRoute_admits_iff (isAuthenticated : Bool)
    (user : Option UserProfile) (now : Int) :
    (subscriptionRequiredRoute false isAuthenticated user now =
        RouteResult.children ↔
      isAuthenticated = true ∧
      ∃ u sub, user = some u ∧ u.subscription = some sub ∧
        (sub.status = some "active" ∨ sub.status = some "trial") ∧
        ∀ e, sub.expiryDate = some e → now ≤ e) ∧
    (∀ u sub e, isAuthenticated = true → user = some u →
      u.subscription = some sub →
      (sub.status = some "active" ∨ sub.status = some "trial") →
      sub.expiryDate = some e → e < now →
      subscriptionRequiredRoute false isAuthenticated user now =
        RouteResult.navigate "/subscription") := by
  cases isAuthenticated with
  | false =>
    constructor
    · simp [subscriptionRequiredRoute]
    · intro u sub e hauth
      exact absurd hauth (by simp)
  | true =>
    cases user with
    | none =>
      constructor
      · simp [subscriptionRequiredRoute, emptySubscription]
      · intro u sub e _ hu
        exact absurd hu (by simp)
    | some u =>
      cases hsub : u.subscription with
      | none =>
        constructor
        · simp [subscriptionRequiredRoute, hsub, emptySubscription]
        · intro u' sub' e _ hu hsubeq
          obtain rfl := Option.some.inj hu
          rw [hsub] at hsubeq
          exact absurd hsubeq (by simp)
      | some sub =>
        cases hexp : sub.expiryDate with
        | none =>
          by_cases hact : sub.status = some "active" ∨ sub.status = some "trial"
          · constructor
            · simp [subscriptionRequiredRoute, hsub, hexp, hact]
            · intro u' sub' e _ hu hsubeq _ hexpeq
              obtain rfl := Option.some.inj hu
              rw [hsub] at hsubeq
              obtain rfl := Option.some.inj hsubeq
              rw [hexp] at hexpeq
              exact absurd hexpeq (by simp)
          · constructor
            · simp [subscriptionRequiredRoute, hsub, hexp, hact]
            · intro u' sub' e _ hu hsubeq hact' hexpeq
              obtain rfl := Option.some.inj hu
              rw [hsub] at hsubeq
              obtain rfl := Option.some.inj hsubeq
              exact absurd hact' hact
        | some expiry =>
          by_cases hlt : expiry < now
          · constructor
            · simp [subscriptionRequiredRoute, hsub, hexp, hlt]
            · intro u' sub' e _ hu hsubeq hact' hexpeq hlt'
              obtain rfl := Option.some.inj hu
              rw [hsub] at hsubeq
              obtain rfl := Option.some.inj hsubeq
              simp [subscriptionRequiredRoute, hsub, hexp, hlt]
          · by_cases hact : sub.status = some "active" ∨ sub.status = some "trial"
            · constructor
              · simp [subscriptionRequiredRoute, hsub, hexp, hlt, hact]
                omega
              · intro u' sub' e _ hu hsubeq hact' hexpeq hlt'
                obtain rfl := Option.some.inj hu
                rw [hsub] at hsubeq
                obtain rfl := Option.some.inj hsubeq
                rw [hexp] at hexpeq
                obtain rfl := Option.some.inj hexpeq
                exact absurd hlt' hlt
            · constructor
              · simp [subscriptionRequiredRoute, hsub, hexp, hlt, hact]
              · intro u' sub' e _ hu hsubeq hact' hexpeq hlt'
                obtain rfl := Option.some.inj hu
                rw [hsub] at hsubeq
                obtain rfl := Option.some.inj hsubeq
                exact absurd hact' hact

/-- Witness for C9: an `active` subscription expired at day 5 is redirected
to `/subscription` at day 10, and an `active` subscription with no expiry
date is admitted. -/
theorem subscriptionRoute_admits_iff_witness :
    subscriptionRequiredRoute false true
        (some (UserProfile.mk "U" false (some (Subscription.mk
          (some "active") (some 5) (some "wolffs_alerts"))))) 10 =
      RouteResult.navigate "/subscription" ∧
    subscriptionRequiredRoute false true
        (some (UserProfile.mk "V" false (some (Subscription.mk
          (some "active") none (some "wolffs_alerts"))))) 10 =
      RouteResult.children :=
  ⟨(subscriptionRoute_admits_iff true
      (some (UserProfile.mk "U" false (some (Subscription.mk
        (some "active") (some 5) (some "wolffs_alerts"))))) 10).2
      (UserProfile.mk "U" false (some (Subscription.mk
        (some "active") (some 5) (some "wolffs_alerts"))))
      (Subscription.mk (some "active") (some 5) (some "wolffs_alerts"))
      5 rfl rfl rfl (Or.inl rfl) rfl (by decide),
    (subscriptionRoute_admits_iff true
      (some (UserProfile.mk "V" false (some (Subscription.mk
        (some "active") none (some "wolffs_alerts"))))) 10).1.mpr
      ⟨rfl, UserProfile.mk "V" false (some (Subscription.mk
          (some "active") none (some "wolffs_alerts"))),
        Subscription.mk (some "active") none (some "wolffs_alerts"),
        rfl, rfl, Or.inl rfl, fun e h => nomatch h⟩⟩

/-- Unfolding lemma: the concatenation of a cons of groups. -/
theorem groupsConcat_cons (p : String × List Alert)
    (rest : List (String × List Alert)) :
    groupsConcat (p :: rest) = p.2 ++ groupsConcat rest := by
  simp [groupsConcat]

/-- Pushing an alert under `key` appends it to the bucket of `key` and
leaves every other bucket unchanged. -/
theorem groupLookup_pushGroup (gs : List (String × List Alert))
    (key k : String) (a : Alert) :
    groupLookup k (pushGroup gs key a) =
      if key = k then groupLookup k gs ++ [a] else groupLookup k gs := by
  induction gs with
  | nil =>
    by_cases h : key = k <;> simp [pushGroup, groupLookup, h]
  | cons p rest ih =>
    obtain ⟨k1, g⟩ := p
    by_cases h1 : k1 = key
    · subst h1
      by_cases h2 : k1 = k
      · subst h2
        simp [pushGroup, groupLookup]
      · simp [pushGroup, groupLookup, h2]
    · by_cases h2 : k1 = k
      · subst h2
        have hkk : ¬ key = k1 := fun h => h1 h.symm
        simp [pushGroup, groupLookup, h1, hkk]
      · simp [pushGroup, groupLookup, h1, h2, ih]

/-- Pushing an alert permutes the concatenation of the buckets into the
old concatenation followed by that alert (the alert may land in a bucket
in the middle, so only a permutation is guaranteed). -/
theorem groupsConcat_pushGroup (gs : List (String × List Alert))
    (key : String) (a : Alert) :
    (groupsConcat (pushGroup gs key a)).Perm (groupsConcat gs ++ [a]) := by
  induction gs with
  | nil => simp [pushGroup, groupsConcat]
  | cons p rest ih =>
    obtain ⟨k1, g⟩ := p
    by_cases h : k1 = key
    · simp only [pushGroup, if_pos h, groupsConcat_cons]
      rw [List.append_assoc, List.append_assoc]
      exact List.Perm.append_left g List.perm_append_comm
    · simp only [pushGroup, if_neg h, groupsConcat_cons]
      rw [List.append_assoc]
      exact List.Perm.append_left g ih

/-- After folding a list of alerts into the groups, the bucket of `k`
holds its old content followed by exactly the alerts whose key is `k`, in
their original relative order. -/
theorem groupLookup_foldl (keyOf : Alert → String) (l : List Alert)
    (gs : List (String × List Alert)) (k : String) :
    groupLookup k (l.foldl (fun gs a => pushGroup gs (keyOf a) a) gs) =
      groupLookup k gs ++ l.filter (fun a => keyOf a = k) := by
  induction l generalizing gs with
  | nil => simp
  | cons a t ih =>
    simp only [List.foldl_cons, List.filter_cons]
    rw [ih, groupLookup_pushGroup]
    by_cases h : keyOf a = k
    · rw [if_pos h]
      simp [h, List.append_assoc]
    · rw [if_neg h]
      simp [h]

/-- Folding a list of alerts into the groups permutes the concatenation of
the buckets into the old concatenation followed by the folded alerts. -/
theorem groupsConcat_foldl (keyOf : Alert → String) (l : List Alert)
    (gs : List (String × List Alert)) :
    (groupsConcat (l.foldl (fun gs a => pushGroup gs (keyOf a) a)
      gs)).Perm (groupsConcat gs ++ l) := by
  induction l generalizing gs with
  | nil => simp
  | cons a t ih =>
    simp only [List.foldl_cons]
    have hstep := (groupsConcat_pushGroup gs (keyOf a) a).append_right t
    have heq : (groupsConcat gs ++ [a]) ++ t =
        groupsConcat gs ++ a :: t := by
      rw [List.append_assoc]; rfl
    exact (ih _).trans (heq ▸ hstep)

/-- C10 amended: grouping the filtered alerts by date partitions them
without loss or duplication in the multiset sense — the concatenation of
the groups in date-key order is a permutation of the filtered list, and
each group holds, in their original relative order, exactly the filtered
alerts with that date key — but the concatenation need not equal the
filtered list itself when equal date keys are interleaved (see the
counterexample).  Filtering with a non-`all` value retains exactly the
alerts whose action lowercases to that value, and `all` retains
everything. -/
theorem groupedAlerts_partition (today : Nat) (filter : String)
    (alerts : List Alert) :
    (groupsConcat (groupedAlerts today filter alerts)).Perm
      (filteredAlerts filter alerts) ∧
    (∀ k, groupLookup k (groupedAlerts today filter alerts) =
      (filteredAlerts filter alerts).filter
        (fun a => formatDate today a.timestamp = k)) ∧
    filteredAlerts "all" alerts = alerts ∧
    (filter ≠ "all" → filteredAlerts filter alerts =
      alerts.filter (fun a => a.action.map String.toLower = some filter)) := by
  refine ⟨?_, ?_, ?_, ?_⟩
  · have h := groupsConcat_foldl (fun a => formatDate today a.timestamp)
      (filteredAlerts filter alerts) []
    simpa [groupedAlerts, groupsConcat] using h
  · intro k
    have h := groupLookup_foldl (fun a => formatDate today a.timestamp)
      (filteredAlerts filter alerts) [] k
    simpa [groupedAlerts, groupLookup] using h
  · simp [filteredAlerts]
  · intro hne
    unfold filteredAlerts
    apply List.filter_congr
    intro a _
    cases ha : a.action <;> simp [hne, ha]

/-- A concrete alert timestamped today (day 100). -/
def alertTodayBuy : Alert :=
  Alert.mk 1 "BTCUSD" (some "BUY") (some 50000) (some 100)

/-- A concrete alert timestamped yesterday (day 99). -/
def alertYesterdaySell : Alert :=
  Alert.mk 2 "ETHUSD" (some "SELL") (some 3000) (some 99)

/-- A second concrete alert timestamped today (day 100). -/
def alertTodaySell : Alert :=
  Alert.mk 3 "BTCUSD" (some "SELL") (some 50100) (some 100)

/-- C10 counterexample: with date keys interleaved as Today, Yesterday,
Today, concatenating the groups of `groupedAlerts` in the order their date
keys first occur gives Today-alerts first and so does NOT equal the
filtered alerts list — the relative order across groups is not
preserved. -/
theorem groupedAlerts_concat_reorders :
    groupsConcat (groupedAlerts 100 "all"
        [alertTodayBuy, alertYesterdaySell, alertTodaySell]) =
      [alertTodayBuy, alertTodaySell, alertYesterdaySell] ∧
    filteredAlerts "all"
        [alertTodayBuy, alertYesterdaySell, alertTodaySell] =
      [alertTodayBuy, alertYesterdaySell, alertTodaySell] ∧
    groupsConcat (groupedAlerts 100 "all"
        [alertTodayBuy, alertYesterdaySell, alertTodaySell]) ≠
      filteredAlerts "all"
        [alertTodayBuy, alertYesterdaySell, alertTodaySell] := by decide

/-- Witness for the amended C10 theorem: the non-`all` filter conjunct
applied at the `buy` filter on a concrete list. -/
theorem groupedAlerts_partition_witness :
    filteredAlerts "buy" [alertTodayBuy, alertYesterdaySell] =
      [alertTodayBuy, alertYesterdaySell].filter
        (fun a => a.action.map String.toLower = some "buy") :=
  (groupedAlerts_partition 100 "buy"
    [alertTodayBuy, alertYesterdaySell]).2.2.2 (by decide)
